import Mathlib

/-!
Verification of the resource-validation script `test-resources.py` of the
turkey-watermaps repository.

The script is a checklist runner over a filesystem: six checks (local files,
metadata structure, GeoJSON files, sample tiles, tile count, web server) each
yield pass / fail / skip; `main` aggregates them into a pass rate and a
three-tier exit code.

The embedding below models:
  * JSON documents as an inductive `Json` (numbers restricted to integers:
    every JSON literal in the repository's metadata and in the checks is an
    integer; fractional/exponent literals are outside the model);
  * the filesystem as a finite association list from path to file content,
    where content is either a JSON document (the parsed form of valid JSON
    text) or non-JSON bytes (binary tiles, invalid JSON text);
  * Python exceptions as `Except Unit`; an expression that raises is `.error ()`;
  * the `requests` capability and the HTTP server as a small environment type.
-/

set_option autoImplicit false

namespace WaterMaps

/-- JSON values. Numbers carry integers only: the repository's metadata and
the checks use integer literals exclusively, and the model's parser rejects
fractional or exponent literals rather than approximate them. -/
inductive Json where
  | null : Json
  | bool : Bool → Json
  | num : Int → Json
  | str : String → Json
  | arr : List Json → Json
  | obj : List (String × Json) → Json

/-- First value bound to a key in an object's field list (Python dicts hold
each key once, so first-match lookup agrees with `dict.__getitem__`). -/
def jsonLookup (fields : List (String × Json)) (key : String) : Option Json :=
  match fields with
  | [] => none
  | (k, v) :: rest => if k = key then some v else jsonLookup rest key

/-- Whitespace stripped by Python `int(str)`. -/
def isPyWs (c : Char) : Bool :=
  c == ' ' || c == '\t' || c == '\n' || c == '\r' || c == '\x0b' || c == '\x0c'

/-- Strip leading and trailing whitespace from a character list. -/
def trimChars (s : List Char) : List Char :=
  ((s.dropWhile isPyWs).reverse.dropWhile isPyWs).reverse

/-- Decimal digits to the natural number they denote. -/
def digitsToNat (ds : List Char) : Nat :=
  ds.foldl (fun a c => a * 10 + (c.toNat - '0'.toNat)) 0

/-- Python `int(str)` on a trimmed character list: an optional sign followed
by at least one decimal digit (digit-group underscores are not modelled). -/
def strToIntChars (s : List Char) : Option Int :=
  match s with
  | '-' :: ds =>
    if !ds.isEmpty && ds.all (fun c => c.isDigit) then some (-(digitsToNat ds : Int))
    else none
  | '+' :: ds =>
    if !ds.isEmpty && ds.all (fun c => c.isDigit) then some (digitsToNat ds : Int)
    else none
  | ds =>
    if !ds.isEmpty && ds.all (fun c => c.isDigit) then some (digitsToNat ds : Int)
    else none

/-- Python `int(x)` on a JSON-decoded value: integers pass through, booleans
convert to 0/1, strings are parsed as (optionally signed) decimal integer
literals, everything else raises (`.error ()`). -/
def pyInt (v : Json) : Except Unit Int :=
  match v with
  | .num n => .ok n
  | .bool b => .ok (if b then 1 else 0)
  | .str s =>
    match strToIntChars (trimChars s.data) with
    | some n => .ok n
    | none => .error ()
  | _ => .error ()

/-- Python `len(x)`: defined for sequences and mappings, raises otherwise. -/
def pyLen (v : Json) : Except Unit Nat :=
  match v with
  | .arr xs => .ok xs.length
  | .str s => .ok s.length
  | .obj fields => .ok fields.length
  | _ => .error ()

/-- Python truthiness of a JSON-decoded value. -/
def pyTruthy (v : Json) : Bool :=
  match v with
  | .null => false
  | .bool b => b
  | .num n => n != 0
  | .str s => s ≠ ""
  | .arr xs => !xs.isEmpty
  | .obj fields => !fields.isEmpty

/-- Python `x[0]` on a JSON-decoded value: first element of a list (IndexError
on an empty list), first character of a nonempty string; raises on anything
else (dicts decoded from JSON have string keys, so `x[0]` is a KeyError). -/
def pyIndexZero (v : Json) : Except Unit Json :=
  match v with
  | .arr (x :: _) => .ok x
  | .arr [] => .error ()
  | .str s =>
    match s.data with
    | c :: _ => .ok (.str (String.mk [c]))
    | [] => .error ()
  | _ => .error ()

/-! ### A JSON parser, modelling `json.loads` on the embedded metadata string

Recursive descent over the character list, with a fuel argument for
termination; `parseJson` supplies enough fuel for any input. -/

/-- Skip JSON whitespace. -/
def skipWs (s : List Char) : List Char :=
  match s with
  | c :: rest =>
    if c = ' ' ∨ c = '\t' ∨ c = '\n' ∨ c = '\r' then skipWs rest else c :: rest
  | [] => []

/-- Value of a hex digit, if any. -/
def hexVal (c : Char) : Option Nat :=
  if '0' ≤ c ∧ c ≤ '9' then some (c.toNat - '0'.toNat)
  else if 'a' ≤ c ∧ c ≤ 'f' then some (c.toNat - 'a'.toNat + 10)
  else if 'A' ≤ c ∧ c ≤ 'F' then some (c.toNat - 'A'.toNat + 10)
  else none

/-- Body of a JSON string literal, after the opening quote: the decoded
string and the rest of the input past the closing quote. -/
def parseStrBody (s : List Char) : Option (String × List Char) :=
  match s with
  | [] => none
  | '"' :: rest => some ("", rest)
  | '\\' :: 'u' :: h1 :: h2 :: h3 :: h4 :: rest =>
    match hexVal h1, hexVal h2, hexVal h3, hexVal h4 with
    | some a, some b, some c, some d =>
      let n := ((a * 16 + b) * 16 + c) * 16 + d
      if h : n.isValidChar then
        (parseStrBody rest).map (fun p => (String.mk (Char.ofNatAux n h :: p.1.data), p.2))
      else none
    | _, _, _, _ => none
  | '\\' :: e :: rest =>
    let dec : Option Char :=
      if e = '"' then some '"'
      else if e = '\\' then some '\\'
      else if e = '/' then some '/'
      else if e = 'n' then some '\n'
      else if e = 't' then some '\t'
      else if e = 'r' then some '\r'
      else if e = 'b' then some (Char.ofNat 8)
      else if e = 'f' then some (Char.ofNat 12)
      else none
    match dec with
    | some c => (parseStrBody rest).map (fun p => (String.mk (c :: p.1.data), p.2))
    | none => none
  | c :: rest =>
    (parseStrBody rest).map (fun p => (String.mk (c :: p.1.data), p.2))

/-- A JSON number literal. Only integers are modelled: a fraction or exponent
makes the parse fail (`none`) rather than produce a float. -/
def parseNum (s : List Char) : Option (Json × List Char) :=
  let (neg, s1) : Bool × List Char :=
    match s with
    | '-' :: r => (true, r)
    | _ => (false, s)
  let ds := s1.takeWhile (fun c => c.isDigit)
  let rest := s1.dropWhile (fun c => c.isDigit)
  if ds.isEmpty then none
  else if ds.length > 1 ∧ ds.head? = some '0' then none
  else
    match rest with
    | c :: _ =>
      if c = '.' ∨ c = 'e' ∨ c = 'E' then none
      else some (.num (if neg then -(digitsToNat ds : Int) else (digitsToNat ds : Int)), rest)
    | [] => some (.num (if neg then -(digitsToNat ds : Int) else (digitsToNat ds : Int)), [])

mutual

/-- One JSON value at the front of the input (leading whitespace allowed). -/
def parseVal (fuel : Nat) (s : List Char) : Option (Json × List Char) :=
  match fuel with
  | 0 => none
  | fuel + 1 =>
    match skipWs s with
    | [] => none
    | c :: rest =>
      if c = 'n' then
        match rest with
        | 'u' :: 'l' :: 'l' :: r => some (.null, r)
        | _ => none
      else if c = 't' then
        match rest with
        | 'r' :: 'u' :: 'e' :: r => some (.bool true, r)
        | _ => none
      else if c = 'f' then
        match rest with
        | 'a' :: 'l' :: 's' :: 'e' :: r => some (.bool false, r)
        | _ => none
      else if c = '"' then
        (parseStrBody rest).map (fun p => (.str p.1, p.2))
      else if c = '[' then
        match skipWs rest with
        | ']' :: r => some (.arr [], r)
        | s2 => (parseElems fuel s2).map (fun p => (.arr p.1, p.2))
      else if c = '\x7b' then
        match skipWs rest with
        | '\x7d' :: r => some (.obj [], r)
        | s2 => (parseFields fuel s2).map (fun p => (.obj p.1, p.2))
      else parseNum (c :: rest)

/-- Comma-separated values up to the closing bracket of an array. -/
def parseElems (fuel : Nat) (s : List Char) : Option (List Json × List Char) :=
  match fuel with
  | 0 => none
  | fuel + 1 =>
    match parseVal fuel s with
    | none => none
    | some (v, rest) =>
      match skipWs rest with
      | ',' :: r => (parseElems fuel r).map (fun p => (v :: p.1, p.2))
      | ']' :: r => some ([v], r)
      | _ => none

/-- Comma-separated `"key": value` pairs up to the closing brace of an object. -/
def parseFields (fuel : Nat) (s : List Char) : Option (List (String × Json) × List Char) :=
  match fuel with
  | 0 => none
  | fuel + 1 =>
    match skipWs s with
    | '"' :: rest =>
      match parseStrBody rest with
      | none => none
      | some (key, rest2) =>
        match skipWs rest2 with
        | ':' :: rest3 =>
          match parseVal fuel rest3 with
          | none => none
          | some (v, rest4) =>
            match skipWs rest4 with
            | ',' :: r => (parseFields fuel r).map (fun p => ((key, v) :: p.1, p.2))
            | '\x7d' :: r => some ([(key, v)], r)
            | _ => none
        | _ => none
    | _ => none

end

/-- `json.loads` on a string: parse one value, require only whitespace after. -/
def parseJson (s : String) : Option Json :=
  match parseVal (s.length + 1) s.data with
  | some (v, rest) => if (skipWs rest).isEmpty then some v else none
  | none => none

/-- Python `x == "lit"` on a JSON-decoded value: only an equal `str` compares
equal to a string literal; other types compare unequal without raising. -/
def pyEqStr (v : Json) (s : String) : Bool :=
  match v with
  | .str t => t == s
  | _ => false

/-- Python `x == "lit"` where `x` may be `None` (a missing `dict.get`). -/
def optEqStr (v : Option Json) (s : String) : Bool :=
  match v with
  | some j => pyEqStr j s
  | none => false

/-- One character list is a prefix of another. -/
def listPrefixOf (p s : List Char) : Bool :=
  match p, s with
  | [], _ => true
  | _ :: _, [] => false
  | c :: cs, d :: ds => c == d && listPrefixOf cs ds

/-- One string is a prefix of another. -/
def strPrefixOf (p s : String) : Bool :=
  listPrefixOf p.data s.data

/-- One string is a suffix of another. -/
def strSuffixOf (p s : String) : Bool :=
  listPrefixOf p.data.reverse s.data.reverse

/-! ### The filesystem model

A finite association list from path to content. A directory is represented by
the files inside it (`Path.exists` on the tile directory holds when some file
lies under it). -/

/-- What a file on disk holds, as far as the checks can observe: either text
that `json.load` parses to a `Json` document, or bytes that are not valid
JSON text (binary tiles, HTML, malformed JSON). -/
inductive FileContent where
  | notJson : FileContent
  | json : Json → FileContent

/-- The filesystem state a run of the script observes. -/
structure FS where
  files : List (String × FileContent)

/-- Content of the file at a path, if one exists. -/
def fsLookup (fs : FS) (p : String) : Option FileContent :=
  match fs.files.find? (fun e => e.1 == p) with
  | some e => some e.2
  | none => none

/-- Some file lies strictly inside the directory `d`. -/
def dirHasEntries (fs : FS) (d : String) : Bool :=
  fs.files.any (fun e => strPrefixOf (d ++ "/") e.1)

/-- `os.path.exists`: true for a file at the path or a (nonempty) directory. -/
def os_path_exists (fs : FS) (p : String) : Bool :=
  (fsLookup fs p).isSome || dirHasEntries fs p

/-- `open(p)` followed by `json.load`: raises when the file is absent
(FileNotFoundError) or its text is not valid JSON (JSONDecodeError). -/
def readJsonFile (fs : FS) (p : String) : Except Unit Json :=
  match fsLookup fs p with
  | none => .error ()
  | some .notJson => .error ()
  | some (.json j) => .ok j

/-! ### The six checks of `test-resources.py` -/

/-- `required_files` of `test_local_files`. -/
def required_files : List String :=
  ["docs/index.html",
   "docs/tiles_catchments/metadata.json",
   "docs/data_web/turkey_provinces_web.geojson",
   "docs/data_web/hydrorivers_tr_web_final.geojson",
   "docs/data_web/hydrolakes_tr_web.geojson"]

/-- `missing_files` accumulated by `test_local_files`. -/
def missing_files (fs : FS) : List String :=
  required_files.filter (fun p => !os_path_exists fs p)

/-- `test_local_files`: passes iff no required file is missing. -/
def test_local_files (fs : FS) : Bool :=
  (missing_files fs).isEmpty

/-- Path of the metadata document read by `test_metadata_structure`. -/
def metadata_path : String := "docs/tiles_catchments/metadata.json"

/-- Expected id of the first vector layer. -/
def expected_layer_id : String := "aqueduct_baseline_annual_tr_web"

/-- The `vector_layers` local of `test_metadata_structure`: `None` unless the
document has a `json` key holding a string that parses to an object, in which
case it is that object's `vector_layers` value (default `[]`). Every failure
on the way (non-string value, parse error, non-object result) is swallowed by
the bare `except` and leaves `None`. -/
def vectorLayersOf (fields : List (String × Json)) : Option Json :=
  match jsonLookup fields "json" with
  | none => none
  | some (.str s) =>
    match parseJson s with
    | some (.obj jfields) => some ((jsonLookup jfields "vector_layers").getD (.arr []))
    | _ => none
  | some _ => none

/-- The two `layer_checks` entries: `vector_layers is not None and
len(vector_layers) > 0`, and `vector_layers and vector_layers[0].get('id') ==
expected`. `len` and the indexing may raise outside any local handler. -/
def layerChecks (vl : Option Json) : Except Unit (Bool × Bool) := do
  let hasLayers ←
    match vl with
    | none => pure false
    | some v => do
      let n ← pyLen v
      pure (decide (0 < n))
  let idMatches ←
    match vl with
    | none => pure false
    | some v =>
      if pyTruthy v then do
        let first ← pyIndexZero v
        match first with
        | .obj efields => pure (optEqStr (jsonLookup efields "id") expected_layer_id)
        | _ => .error ()
      else pure false
  pure (hasLayers, idMatches)

/-- The six sub-check booleans of `test_metadata_structure`, in report order.
All six are produced together or not at all: the source builds the whole
check list before printing any line, so an exception while building it (from
`int()`, `len()`, indexing, or `.get` on a non-dict) yields no lines. -/
structure MetaSubchecks where
  hasName : Bool
  formatIsPbf : Bool
  minzoomIs4 : Bool
  maxzoomIs10 : Bool
  hasVectorLayers : Bool
  layerIdMatches : Bool
deriving DecidableEq, Repr

/-- All six sub-check lines pass (`passed == len(all_checks)`). -/
def MetaSubchecks.allPass (s : MetaSubchecks) : Bool :=
  s.hasName && s.formatIsPbf && s.minzoomIs4 && s.maxzoomIs10 &&
    s.hasVectorLayers && s.layerIdMatches

/-- The body of `test_metadata_structure` on a parsed document: the sub-check
lines it reports, or `.error ()` when building them raises (caught by the
outer handler, which reports no lines). A non-dict document raises at the
first `metadata.get`. -/
def metadataSubchecks (metadata : Json) : Except Unit MetaSubchecks :=
  match metadata with
  | .obj fields => do
    let hasName := (jsonLookup fields "name").isSome
    let formatIsPbf := optEqStr (jsonLookup fields "format") "pbf"
    let mz ← pyInt ((jsonLookup fields "minzoom").getD (.num 0))
    let xz ← pyInt ((jsonLookup fields "maxzoom").getD (.num 0))
    let lc ← layerChecks (vectorLayersOf fields)
    pure ⟨hasName, formatIsPbf, decide (mz = 4), decide (xz = 10), lc.1, lc.2⟩
  | _ => .error ()

/-- Outcome of `test_metadata_structure` from its sub-check computation:
an escaped exception is caught and reported as failure, else the check
passes iff all six lines pass. -/
def reportOutcome (r : Except Unit MetaSubchecks) : Bool :=
  match r with
  | .error _ => false
  | .ok s => s.allPass

/-- `test_metadata_structure`: false on any exception (unreadable or invalid
file, raising sub-check construction), else true iff all six lines pass. -/
def test_metadata_structure (fs : FS) : Bool :=
  match readJsonFile fs metadata_path with
  | .error _ => false
  | .ok metadata => reportOutcome (metadataSubchecks metadata)

/-- `geojson_files` of `test_geojson_files`. -/
def geojson_files : List String :=
  ["docs/data_web/turkey_provinces_web.geojson",
   "docs/data_web/hydrorivers_tr_web_final.geojson",
   "docs/data_web/hydrolakes_tr_web.geojson"]

/-- Verdict for one file of `test_geojson_files`: any exception (missing
file, invalid JSON, subscripting a non-dict) is caught in the per-file
handler and counts as invalid; a parsed document is valid iff it is a dict
whose `type` value is the string `FeatureCollection` or `Feature`. -/
def geojsonFileValid (fs : FS) (p : String) : Bool :=
  match readJsonFile fs p with
  | .error _ => false
  | .ok d =>
    match d with
    | .obj dfields =>
      match jsonLookup dfields "type" with
      | some (.str t) => t == "FeatureCollection" || t == "Feature"
      | _ => false
    | _ => false

/-- The per-file verdicts of `test_geojson_files`, in list order: the loop
visits every file regardless of earlier failures. -/
def geojsonResults (fs : FS) : List Bool :=
  geojson_files.map (geojsonFileValid fs)

/-- `test_geojson_files` (`all_valid`): every file's verdict is valid. -/
def test_geojson_files (fs : FS) : Bool :=
  (geojsonResults fs).all (fun b => b)

/-- `sample_tiles` of `test_sample_tiles`. -/
def sample_tiles : List String :=
  ["docs/tiles_catchments/4/10/6.pbf",
   "docs/tiles_catchments/6/36/23.pbf",
   "docs/tiles_catchments/8/146/95.pbf",
   "docs/tiles_catchments/10/604/401.pbf"]

/-- `test_sample_tiles`: `existing_tiles == len(sample_tiles)`. -/
def test_sample_tiles (fs : FS) : Bool :=
  sample_tiles.countP (fun p => os_path_exists fs p) == sample_tiles.length

/-- Directory scanned by `count_tiles`. -/
def tiles_dir : String := "docs/tiles_catchments"

/-- `rglob('*.pbf')` under the tile directory. -/
def pbfFilesUnder (fs : FS) : List String :=
  (fs.files.map Prod.fst).filter
    (fun p => strPrefixOf (tiles_dir ++ "/") p && strSuffixOf ".pbf" p)

/-- `count_tiles`: false when the directory is absent, else true iff at least
one `.pbf` file is found recursively. -/
def count_tiles (fs : FS) : Bool :=
  if dirHasEntries fs tiles_dir then !(pbfFilesUnder fs).isEmpty else false

/-- State of the optional web capability: the `requests` import may fail, the
GET may raise (connection refused / timeout), or the server answers with a
status code. -/
inductive WebEnv where
  | noRequests : WebEnv
  | unreachable : WebEnv
  | status : Nat → WebEnv
deriving DecidableEq, Repr

/-- `test_web_server`: `None` (skip) without `requests` or when the GET
raises; otherwise pass iff the status is 200. -/
def test_web_server (web : WebEnv) : Option Bool :=
  match web with
  | .noRequests => none
  | .unreachable => none
  | .status code => some (code == 200)

/-! ### The orchestrator `main` -/

/-- The environment a run observes: a filesystem and the web capability. -/
structure Env where
  fs : FS
  web : WebEnv

/-- A check's recorded outcome: `some true` pass, `some false` fail,
`none` skip. -/
abbrev CheckOutcome := Option Bool

/-- The `tests` list of `main`, in its fixed order. Each entry is the check's
computation: `.ok` its outcome, `.error ()` an escaped exception. The six
checks of this script are exception-free at this level (each catches its own
exceptions), so each entry here is `.ok`. -/
def checkList (env : Env) : List (String × Except Unit CheckOutcome) :=
  [("Local Files", .ok (some (test_local_files env.fs))),
   ("Metadata Structure", .ok (some (test_metadata_structure env.fs))),
   ("GeoJSON Files", .ok (some (test_geojson_files env.fs))),
   ("Sample Tiles", .ok (some (test_sample_tiles env.fs))),
   ("Tile Count", .ok (some (count_tiles env.fs))),
   ("Web Server", .ok (test_web_server env.web))]

/-- The orchestrator's per-check `try`: an exception is recorded as that
check's failure (`results.append((test_name, False))`). -/
def recordResult (r : Except Unit CheckOutcome) : CheckOutcome :=
  match r with
  | .ok v => v
  | .error _ => some false

/-- The orchestrator loop of `main`: run each registered check in order,
appending its recorded outcome. -/
def runChecks (cs : List (String × Except Unit CheckOutcome)) :
    List (String × CheckOutcome) :=
  match cs with
  | [] => []
  | c :: rest => (c.1, recordResult c.2) :: runChecks rest

/-- `passed` of the summary: results that are `True`. -/
def passedCount (results : List (String × CheckOutcome)) : Nat :=
  results.countP (fun r => r.2 == some true)

/-- `success_rate = (passed / total) * 100`, in exact rational arithmetic
(the Python float computation is exact at every comparison `main` makes). -/
def success_rate (passed total : Nat) : ℚ :=
  (passed : ℚ) / (total : ℚ) * 100

/-- The three-tier exit code computed from the rate. -/
def exitOfRate (rate : ℚ) : Nat :=
  if rate = 100 then 0 else if 80 ≤ rate then 1 else 2

/-- `main`'s exit code on an environment. -/
def main_exit (env : Env) : Nat :=
  let results := runChecks (checkList env)
  exitOfRate (success_rate (passedCount results) results.length)

/-! ### Concrete filesystem states -/

/-- The embedded vector-layer descriptor of the end-to-end scenario (§8 of
the spec), verbatim. -/
def layer_json_str : String :=
  "\x7b\"vector_layers\":[\x7b\"id\":\"aqueduct_baseline_annual_tr_web\"\x7d]\x7d"

/-- A metadata document with the expected name, format and embedded layer
descriptor, and the given zoom values. -/
def mkMetadata (minzoom maxzoom : Json) : Json :=
  .obj [("name", .str "tiles_catchments"),
        ("format", .str "pbf"),
        ("minzoom", minzoom),
        ("maxzoom", maxzoom),
        ("json", .str layer_json_str)]

/-- The fully expected metadata document. -/
def goodMetadata : Json := mkMetadata (.num 4) (.num 10)

/-- A minimal valid feature collection. -/
def validFeatureCollection : Json :=
  .obj [("type", .str "FeatureCollection"), ("features", .arr [])]

/-- The end-to-end filesystem: all five required files, three valid GeoJSON
feature collections, the four sample tiles, and the given metadata. -/
def fsWithMetadata (metadata : Json) : FS :=
  ⟨[("docs/index.html", .notJson),
    ("docs/tiles_catchments/metadata.json", .json metadata),
    ("docs/data_web/turkey_provinces_web.geojson", .json validFeatureCollection),
    ("docs/data_web/hydrorivers_tr_web_final.geojson", .json validFeatureCollection),
    ("docs/data_web/hydrolakes_tr_web.geojson", .json validFeatureCollection),
    ("docs/tiles_catchments/4/10/6.pbf", .notJson),
    ("docs/tiles_catchments/6/36/23.pbf", .notJson),
    ("docs/tiles_catchments/8/146/95.pbf", .notJson),
    ("docs/tiles_catchments/10/604/401.pbf", .notJson)]⟩

/-- The filesystem state in which every local check passes. -/
def allPassFS : FS := fsWithMetadata goodMetadata

/-- `allPassFS` with one path deleted. -/
def removeFile (fs : FS) (p : String) : FS :=
  ⟨fs.files.filter (fun e => e.1 != p)⟩

/-- The metadata document of the spec's end-to-end scenario, verbatim: it has
no `name` key. -/
def c2Metadata : Json :=
  .obj [("format", .str "pbf"), ("minzoom", .num 4), ("maxzoom", .num 10),
        ("json", .str layer_json_str)]

/-- Expected metadata except that the `json` key is absent. -/
def mdNoJsonField : Json :=
  .obj [("name", .str "tiles_catchments"), ("format", .str "pbf"),
        ("minzoom", .num 4), ("maxzoom", .num 10)]

/-- Expected metadata except that the `json` string is not valid JSON text. -/
def mdUnparsableJson : Json :=
  .obj [("name", .str "tiles_catchments"), ("format", .str "pbf"),
        ("minzoom", .num 4), ("maxzoom", .num 10), ("json", .str "\x7b")]

/-- Expected metadata except that the embedded object has no `vector_layers`. -/
def mdNoVectorLayers : Json :=
  .obj [("name", .str "tiles_catchments"), ("format", .str "pbf"),
        ("minzoom", .num 4), ("maxzoom", .num 10), ("json", .str "\x7b\x7d")]

/-- Expected metadata except that the embedded `vector_layers` list is empty. -/
def mdEmptyVectorLayers : Json :=
  .obj [("name", .str "tiles_catchments"), ("format", .str "pbf"),
        ("minzoom", .num 4), ("maxzoom", .num 10),
        ("json", .str "\x7b\"vector_layers\":[]\x7d")]

/-- A check list with one raising entry, for exercising the orchestrator. -/
def demoChecks : List (String × Except Unit CheckOutcome) :=
  [("Broken", .error ()), ("Fine", .ok (some true))]

/-- `allPassFS` with the first GeoJSON file's text made invalid JSON. -/
def badGeoFS : FS :=
  ⟨allPassFS.files.map
    (fun e => if e.1 == "docs/data_web/turkey_provinces_web.geojson"
              then (e.1, FileContent.notJson) else e)⟩

/-- An environment with a missing required file and no web capability. -/
def skipMissingEnv : Env :=
  ⟨removeFile allPassFS "docs/index.html", .noRequests⟩

/-- Exit code as a function of the number of passing checks (the run always
has six results, so the rate thresholds collapse to 6-out-of-6 and
5-out-of-6). -/
def exit_of_passed (k : Nat) : Nat :=
  if k = 6 then 0 else if k = 5 then 1 else 2

/-!
## Theorems
-/

/-- The orchestrator loop maps each registered check to its recorded
outcome. -/
theorem runChecks_eq_map (cs : List (String × Except Unit CheckOutcome)) :
    runChecks cs = cs.map (fun c => (c.1, recordResult c.2)) := by
  induction cs with
  | nil => rfl
  | cons c rest ih => simp [runChecks, ih]

/-- Every run produces exactly six results. -/
theorem runChecks_checkList_length (env : Env) :
    (runChecks (checkList env)).length = 6 := rfl

/-- The exit code depends only on how many of the six results are passes. -/
theorem main_exit_by_passed (env : Env) :
    main_exit env = exit_of_passed (passedCount (runChecks (checkList env))) := by
  have hle : passedCount (runChecks (checkList env)) ≤ 6 := by
    have h : passedCount (runChecks (checkList env)) ≤
        (runChecks (checkList env)).length := List.countP_le_length _
    rw [runChecks_checkList_length] at h
    exact h
  show exitOfRate (success_rate (passedCount (runChecks (checkList env)))
      (runChecks (checkList env)).length) = _
  rw [runChecks_checkList_length]
  set k := passedCount (runChecks (checkList env)) with hk
  interval_cases k <;> norm_num [success_rate, exitOfRate, exit_of_passed]

/-- The metadata sub-checks on a document with expected name, format and
layer descriptor reduce to the two zoom conversions. -/
theorem metadataSubchecks_mk (mz xz : Json) :
    metadataSubchecks (mkMetadata mz xz) =
      (do
        let a ← pyInt mz
        let b ← pyInt xz
        pure ⟨true, true, decide (a = 4), decide (b = 10), true, true⟩ :
        Except Unit MetaSubchecks) := rfl

/-- C1: on the all-pass filesystem with the requests library unavailable,
the web check is recorded as a skip (not a fail), yet the skip still counts
in the pass-rate denominator: five passes out of six results give a rate of
5/6 of 100 and exit code 1 — the claim's 100% rate and success exit are not
reached. -/
theorem C1_skip_still_counts_in_denominator :
    runChecks (checkList ⟨allPassFS, .noRequests⟩) =
      [("Local Files", some true), ("Metadata Structure", some true),
       ("GeoJSON Files", some true), ("Sample Tiles", some true),
       ("Tile Count", some true), ("Web Server", none)] ∧
    success_rate (passedCount (runChecks (checkList ⟨allPassFS, .noRequests⟩)))
      (runChecks (checkList ⟨allPassFS, .noRequests⟩)).length = 250 / 3 ∧
    main_exit ⟨allPassFS, .noRequests⟩ = 1 := by
  refine ⟨rfl, ?_, ?_⟩
  · have hp : passedCount (runChecks (checkList ⟨allPassFS, .noRequests⟩)) = 5 := rfl
    rw [hp, runChecks_checkList_length]
    norm_num [success_rate]
  · rw [main_exit_by_passed]
    rfl

/-- C2 counterexample: with the scenario's metadata document exactly as the
claim states it (no `name` key), the metadata check fails its name line, so
even with the web server answering 200 the run exits 1, not 0; and with the
`name` key added but the web check skipped, the run still exits 1. -/
theorem C2_counterexample :
    metadataSubchecks c2Metadata = .ok ⟨false, true, true, true, true, true⟩ ∧
    test_metadata_structure (fsWithMetadata c2Metadata) = false ∧
    main_exit ⟨fsWithMetadata c2Metadata, .status 200⟩ = 1 ∧
    main_exit ⟨fsWithMetadata c2Metadata, .noRequests⟩ = 2 ∧
    main_exit ⟨allPassFS, .noRequests⟩ = 1 := by
  refine ⟨rfl, rfl, ?_, ?_, ?_⟩ <;> rw [main_exit_by_passed] <;> rfl

/-- C2 amended: in the end-to-end scenario with the five required files, the
scenario metadata completed with a `name` key, three valid feature
collections, the four sample tiles, and the web server answering 200, every
check passes and `main` exits 0. -/
theorem C2_end_to_end_all_pass :
    runChecks (checkList ⟨allPassFS, .status 200⟩) =
      [("Local Files", some true), ("Metadata Structure", some true),
       ("GeoJSON Files", some true), ("Sample Tiles", some true),
       ("Tile Count", some true), ("Web Server", some true)] ∧
    main_exit ⟨allPassFS, .status 200⟩ = 0 := by
  refine ⟨rfl, ?_⟩
  rw [main_exit_by_passed]
  rfl

/-- C3: every run exits with 0, 1 or 2, and the code is determined by the
aggregate pass rate exactly as claimed: 0 iff the rate is 100, 1 iff it is
at least 80 and below 100, 2 iff it is below 80. -/
theorem C3_exit_code_trichotomy (env : Env) :
    (main_exit env = 0 ∨ main_exit env = 1 ∨ main_exit env = 2) ∧
    (main_exit env = 0 ↔
      success_rate (passedCount (runChecks (checkList env)))
        (runChecks (checkList env)).length = 100) ∧
    (main_exit env = 1 ↔
      (80 ≤ success_rate (passedCount (runChecks (checkList env)))
        (runChecks (checkList env)).length ∧
       success_rate (passedCount (runChecks (checkList env)))
        (runChecks (checkList env)).length < 100)) ∧
    (main_exit env = 2 ↔
      success_rate (passedCount (runChecks (checkList env)))
        (runChecks (checkList env)).length < 80) := by
  have hle : passedCount (runChecks (checkList env)) ≤ 6 := by
    have h : passedCount (runChecks (checkList env)) ≤
        (runChecks (checkList env)).length := List.countP_le_length _
    rw [runChecks_checkList_length] at h
    exact h
  have hm : main_exit env = exitOfRate (success_rate
      (passedCount (runChecks (checkList env))) (runChecks (checkList env)).length) := rfl
  rw [hm, runChecks_checkList_length]
  set k := passedCount (runChecks (checkList env)) with hk
  interval_cases k <;> norm_num [success_rate, exitOfRate]

/-- C10: with the embedded `json` field absent, unparsable, or parsed to an
object whose `vector_layers` is missing or an empty list, both layer checks
evaluate to fail with no exception (the conjunction short-circuits before
`vector_layers[0]`), and the metadata check still reports all six sub-check
lines. -/
theorem C10_layer_checks_short_circuit :
    layerChecks none = .ok (false, false) ∧
    layerChecks (some (.arr [])) = .ok (false, false) ∧
    metadataSubchecks mdNoJsonField = .ok ⟨true, true, true, true, false, false⟩ ∧
    metadataSubchecks mdUnparsableJson = .ok ⟨true, true, true, true, false, false⟩ ∧
    metadataSubchecks mdNoVectorLayers = .ok ⟨true, true, true, true, false, false⟩ ∧
    metadataSubchecks mdEmptyVectorLayers = .ok ⟨true, true, true, true, false, false⟩ :=
  ⟨rfl, rfl, rfl, rfl, rfl, rfl⟩

/-- C4 counterexample: removing only the metadata file from the all-pass
state flips two checks, not one — the local-files check and the
metadata-structure check both go from pass to fail — and the exit code
becomes 2. -/
theorem C4_counterexample :
    test_local_files allPassFS = true ∧
    test_metadata_structure allPassFS = true ∧
    test_local_files (removeFile allPassFS metadata_path) = false ∧
    test_metadata_structure (removeFile allPassFS metadata_path) = false ∧
    main_exit ⟨removeFile allPassFS metadata_path, .status 200⟩ = 2 := by
  refine ⟨rfl, rfl, rfl, rfl, ?_⟩
  rw [main_exit_by_passed]
  rfl

/-- C4 amended: removing any single required file from the all-pass state
flips the local-files check to fail, additionally flips the
metadata-structure check exactly when the removed file is the metadata file
and the GeoJSON check exactly when it is one of the three GeoJSON files,
leaves the remaining checks unchanged, and raises the exit code to at
least 1. -/
theorem C4_single_removal (p : String) (hp : p ∈ required_files) :
    test_local_files (removeFile allPassFS p) = false ∧
    test_metadata_structure (removeFile allPassFS p) = decide (p ≠ metadata_path) ∧
    test_geojson_files (removeFile allPassFS p) = decide (¬ p ∈ geojson_files) ∧
    test_sample_tiles (removeFile allPassFS p) = true ∧
    count_tiles (removeFile allPassFS p) = true ∧
    test_web_server (.status 200) = some true ∧
    1 ≤ main_exit ⟨removeFile allPassFS p, .status 200⟩ := by
  fin_cases hp <;>
    exact ⟨by decide, by decide, by decide, by decide, by decide, rfl,
      by rw [main_exit_by_passed]; decide⟩

/-- C4 witness: the amended statement at the removed file `docs/index.html`. -/
theorem C4_single_removal_witness :
    "docs/index.html" ∈ required_files ∧
    (test_local_files (removeFile allPassFS "docs/index.html") = false ∧
     test_metadata_structure (removeFile allPassFS "docs/index.html") =
       decide ("docs/index.html" ≠ metadata_path) ∧
     test_geojson_files (removeFile allPassFS "docs/index.html") =
       decide (¬ "docs/index.html" ∈ geojson_files) ∧
     test_sample_tiles (removeFile allPassFS "docs/index.html") = true ∧
     count_tiles (removeFile allPassFS "docs/index.html") = true ∧
     test_web_server (.status 200) = some true ∧
     1 ≤ main_exit ⟨removeFile allPassFS "docs/index.html", .status 200⟩) :=
  ⟨by decide, C4_single_removal "docs/index.html" (by decide)⟩

/-- C5 counterexample: with `minzoom` the JSON value `null` (a value other
than 4, all other fields as expected), `int(None)` raises while the check
list is being built, the outer handler catches it, and no sub-check line at
all is reported — the sibling sub-checks are not evaluated and reported, the
whole check just fails. -/
theorem C5_counterexample :
    metadataSubchecks (mkMetadata .null (.num 10)) = .error () ∧
    test_metadata_structure (fsWithMetadata (mkMetadata .null (.num 10))) = false :=
  ⟨rfl, rfl⟩

/-- C5 amended: for every integer `minzoom` value other than 4 (all other
fields as expected), exactly the min-zoom line fails while the five sibling
sub-check lines are evaluated and reported as passing, and the check's
overall result is fail. -/
theorem C5_integer_minzoom_fails_only_zoom_line (n : Int) (hn : n ≠ 4) :
    metadataSubchecks (mkMetadata (.num n) (.num 10)) =
      .ok ⟨true, true, false, true, true, true⟩ ∧
    test_metadata_structure (fsWithMetadata (mkMetadata (.num n) (.num 10))) = false := by
  have hd : decide (n = 4) = false := decide_eq_false hn
  have hred : metadataSubchecks (mkMetadata (.num n) (.num 10)) =
      .ok ⟨true, true, decide (n = 4), true, true, true⟩ := rfl
  rw [hd] at hred
  refine ⟨hred, ?_⟩
  have ht : test_metadata_structure (fsWithMetadata (mkMetadata (.num n) (.num 10))) =
      reportOutcome (metadataSubchecks (mkMetadata (.num n) (.num 10))) := rfl
  rw [ht, hred]
  rfl

/-- C5 witness: the amended statement at `minzoom` 5. -/
theorem C5_integer_minzoom_witness :
    (5 : Int) ≠ 4 ∧
    (metadataSubchecks (mkMetadata (.num 5) (.num 10)) =
       .ok ⟨true, true, false, true, true, true⟩ ∧
     test_metadata_structure (fsWithMetadata (mkMetadata (.num 5) (.num 10))) = false) :=
  ⟨by decide, C5_integer_minzoom_fails_only_zoom_line 5 (by decide)⟩

/-- C9 counterexample: a metadata document whose `minzoom` is the JSON
string "4" — not the literal number 4 — still passes the zoom sub-checks and
the whole metadata check, because the source compares `int(minzoom)` with 4;
the claimed only-if direction fails. -/
theorem C9_counterexample :
    metadataSubchecks (mkMetadata (.str "4") (.num 10)) =
      .ok ⟨true, true, true, true, true, true⟩ ∧
    test_metadata_structure (fsWithMetadata (mkMetadata (.str "4") (.num 10))) = true :=
  ⟨rfl, rfl⟩

/-- C9 amended: with the other fields as expected, the zoom sub-checks pass
iff Python `int()` of the `minzoom` value yields 4 and of the `maxzoom`
value yields 10 (so the integer literals pass, but so do numeric strings,
while a value `int()` rejects aborts the check); the whole check passes
under exactly the same condition. -/
theorem C9_zoom_subchecks_via_int (mz xz : Json) :
    ((∃ s : MetaSubchecks, metadataSubchecks (mkMetadata mz xz) = .ok s ∧
        s.minzoomIs4 = true ∧ s.maxzoomIs10 = true) ↔
      (pyInt mz = .ok 4 ∧ pyInt xz = .ok 10)) ∧
    (test_metadata_structure (fsWithMetadata (mkMetadata mz xz)) = true ↔
      (pyInt mz = .ok 4 ∧ pyInt xz = .ok 10)) := by
  have ht : test_metadata_structure (fsWithMetadata (mkMetadata mz xz)) =
      reportOutcome (metadataSubchecks (mkMetadata mz xz)) := rfl
  rcases h1 : pyInt mz with u | a
  · have hm : metadataSubchecks (mkMetadata mz xz) = .error () := by
      rw [metadataSubchecks_mk, h1]
      rfl
    rw [ht, hm]
    simp [reportOutcome]
  · rcases h2 : pyInt xz with v | b
    · have hm : metadataSubchecks (mkMetadata mz xz) = .error () := by
        rw [metadataSubchecks_mk, h1, h2]
        rfl
      rw [ht, hm]
      simp [reportOutcome]
    · have hm : metadataSubchecks (mkMetadata mz xz) =
          .ok ⟨true, true, decide (a = 4), decide (b = 10), true, true⟩ := by
        rw [metadataSubchecks_mk, h1, h2]
        rfl
      rw [ht, hm]
      simp [reportOutcome, MetaSubchecks.allPass]

/-- C6: the orchestrator records an erroring check as a failure instead of
aborting, and every registered check contributes its recorded outcome at its
own position, in the fixed order. -/
theorem C6_exception_recorded_as_failure
    (cs : List (String × Except Unit CheckOutcome)) (i : Nat)
    (h : i < cs.length) (herr : (cs.get ⟨i, h⟩).2 = .error ()) :
    (runChecks cs).length = cs.length ∧
    (runChecks cs)[i]? = some ((cs.get ⟨i, h⟩).1, some false) ∧
    (∀ j (hj : j < cs.length),
      (runChecks cs)[j]? = some ((cs.get ⟨j, hj⟩).1, recordResult (cs.get ⟨j, hj⟩).2)) := by
  have hmap := runChecks_eq_map cs
  have hlen : (runChecks cs).length = cs.length := by rw [hmap]; simp
  have hidx : ∀ j (hj : j < cs.length),
      (runChecks cs)[j]? = some ((cs.get ⟨j, hj⟩).1, recordResult (cs.get ⟨j, hj⟩).2) := by
    intro j hj
    rw [hmap, List.getElem?_map, List.getElem?_eq_getElem hj]
    simp [List.get_eq_getElem]
  refine ⟨hlen, ?_, hidx⟩
  have hi := hidx i h
  rw [hi, herr]
  rfl

/-- C6 witness: a two-entry check list whose first check raises; the run
still has both results, the first recorded as a failure. -/
theorem C6_witness :
    0 < demoChecks.length ∧ (demoChecks.get ⟨0, by decide⟩).2 = .error () ∧
    ((runChecks demoChecks).length = demoChecks.length ∧
     (runChecks demoChecks)[0]? = some ((demoChecks.get ⟨0, by decide⟩).1, some false) ∧
     (∀ j (hj : j < demoChecks.length),
       (runChecks demoChecks)[j]? =
         some ((demoChecks.get ⟨j, hj⟩).1, recordResult (demoChecks.get ⟨j, hj⟩).2))) :=
  ⟨by decide, rfl, C6_exception_recorded_as_failure demoChecks 0 (by decide) rfl⟩

/-- C7: a GeoJSON file whose text is invalid JSON is reported invalid, every
file of the fixed list still gets its own verdict at its own position, and
the check's overall result is fail. -/
theorem C7_invalid_file_does_not_abort (fs : FS) (p : String)
    (hp : p ∈ geojson_files) (hbad : fsLookup fs p = some .notJson) :
    (geojsonResults fs).length = geojson_files.length ∧
    geojsonFileValid fs p = false ∧
    (∀ j (hj : j < geojson_files.length),
      (geojsonResults fs)[j]? = some (geojsonFileValid fs (geojson_files.get ⟨j, hj⟩))) ∧
    test_geojson_files fs = false := by
  have hval : geojsonFileValid fs p = false := by
    unfold geojsonFileValid readJsonFile
    rw [hbad]
  refine ⟨by simp [geojsonResults], hval, ?_, ?_⟩
  · intro j hj
    unfold geojsonResults
    rw [List.getElem?_map, List.getElem?_eq_getElem hj]
    simp [List.get_eq_getElem]
  · unfold test_geojson_files
    refine List.all_eq_false.mpr ⟨geojsonFileValid fs p, List.mem_map_of_mem _ hp, ?_⟩
    simp [hval]

/-- C7 witness: the first GeoJSON file's text made invalid; its verdict is
false, all three verdicts are produced, the check fails. -/
theorem C7_witness :
    "docs/data_web/turkey_provinces_web.geojson" ∈ geojson_files ∧
    fsLookup badGeoFS "docs/data_web/turkey_provinces_web.geojson" = some .notJson ∧
    ((geojsonResults badGeoFS).length = geojson_files.length ∧
     geojsonFileValid badGeoFS "docs/data_web/turkey_provinces_web.geojson" = false ∧
     (∀ j (hj : j < geojson_files.length),
       (geojsonResults badGeoFS)[j]? =
         some (geojsonFileValid badGeoFS (geojson_files.get ⟨j, hj⟩))) ∧
     test_geojson_files badGeoFS = false) :=
  ⟨by decide, rfl,
   C7_invalid_file_does_not_abort badGeoFS "docs/data_web/turkey_provinces_web.geojson"
     (by decide) rfl⟩

/-- C8: only the web-server check can yield a skip, and only when the
requests capability is absent or the GET raises; a reachable server with a
non-200 status is a fail; and a missing required local file makes the
local-files check a fail, never a skip. -/
theorem C8_skip_only_optional_web (env : Env) :
    (∀ r ∈ runChecks (checkList env), r.2 = none →
      r.1 = "Web Server" ∧ (env.web = .noRequests ∨ env.web = .unreachable)) ∧
    test_web_server .noRequests = none ∧
    test_web_server .unreachable = none ∧
    (∀ code : Nat, test_web_server (.status code) = some (code == 200)) ∧
    (∀ p ∈ required_files, os_path_exists env.fs p = false →
      (runChecks (checkList env))[0]? = some ("Local Files", some false)) := by
  obtain ⟨fs, web⟩ := env
  refine ⟨?_, rfl, rfl, fun code => rfl, ?_⟩
  · intro r hr hnone
    cases web <;>
      simp only [runChecks, checkList, recordResult, test_web_server,
        List.mem_cons, List.not_mem_nil, or_false] at hr <;>
      rcases hr with h | h | h | h | h | h <;> subst h <;> simp_all
  · intro p hp hmiss
    have hpm : p ∈ missing_files fs := by
      refine List.mem_filter.mpr ⟨hp, ?_⟩
      rw [hmiss]
      rfl
    have hne : missing_files fs ≠ [] := List.ne_nil_of_mem hpm
    have hfalse : test_local_files fs = false := by
      unfold test_local_files
      cases hml : missing_files fs with
      | nil => exact absurd hml hne
      | cons a t => rfl
    have h0 : (runChecks (checkList ⟨fs, web⟩))[0]? =
        some ("Local Files", some (test_local_files fs)) := rfl
    rw [h0, hfalse]

/-- C8 witness: a missing required file with the web capability absent: the
local-files result is a fail, not a skip. -/
theorem C8_witness :
    "docs/index.html" ∈ required_files ∧
    os_path_exists skipMissingEnv.fs "docs/index.html" = false ∧
    (runChecks (checkList skipMissingEnv))[0]? = some ("Local Files", some false) :=
  ⟨by decide, by decide,
   (C8_skip_only_optional_web skipMissingEnv).2.2.2.2 "docs/index.html"
     (by decide) (by decide)⟩

end WaterMaps

